import Mathlib

/-!
# Security-header middleware of `yee` (`middleware/secure.go`)

A shallow embedding of `SecureConfig`, `DefaultSecureConfig`, `Secure` and
`SecureWithConfig`, together with the part of `yee.Context` the handler uses,
and the properties of the handler stated in the specification.
-/

namespace Yee

/-! ## Header names -/

/-- Modelled from the spec: the constant `yee.HeaderXXSSProtection` (§6). -/
def HeaderXXSSProtection : String := "X-XSS-Protection"

/-- Modelled from the spec: the constant `yee.HeaderXContentTypeOptions` (§6). -/
def HeaderXContentTypeOptions : String := "X-Content-Type-Options"

/-- Modelled from the spec: the constant `yee.HeaderXFrameOptions` (§6). -/
def HeaderXFrameOptions : String := "X-Frame-Options"

/-- Modelled from the spec: the constant `yee.HeaderStrictTransportSecurity` (§6). -/
def HeaderStrictTransportSecurity : String := "Strict-Transport-Security"

/-- Modelled from the spec: the constant `yee.HeaderContentSecurityPolicy` (§6). -/
def HeaderContentSecurityPolicy : String := "Content-Security-Policy"

/-- Modelled from the spec: the constant `yee.HeaderContentSecurityPolicyReportOnly` (§6). -/
def HeaderContentSecurityPolicyReportOnly : String := "Content-Security-Policy-Report-Only"

/-- Modelled from the spec: the constant `yee.HeaderReferrerPolicy` (§6). -/
def HeaderReferrerPolicy : String := "Referrer-Policy"

/-- Modelled from the spec: the constant `yee.HeaderXForwardedProto` (§6). -/
def HeaderXForwardedProto : String := "X-Forwarded-Proto"

/-! ## The request exchange -/

/-- A Go `error` value that is not `nil`, identified by its message. -/
abbrev Error := String

/-- One command issued on the exchange. -/
inductive Call where
  | setHeader (key value : String)
  | next
  deriving DecidableEq, Repr

/-- Modelled from the spec: the type `yee.Context`, the request exchange of §4.1 and §6.
`tls` answers "is this connection TLS-terminated?", `request` holds the inbound
headers, `response` is the outbound header sink, `calls` is the chronological record
of the commands issued on the exchange, and `downstream` is the result the next
stage of the chain reports when it is run (`none` for the absence of an error). -/
structure Context where
  tls : Bool
  request : String → Option String
  response : String → Option String
  calls : List Call
  downstream : Option Error

namespace Context

/-- Modelled from the spec: the query `IsTls` of `yee.Context`. -/
def IsTls (c : Context) : Bool := c.tls

/-- Modelled from the spec: the query `GetHeader` of `yee.Context`; an absent inbound
header reads as the empty string. -/
def GetHeader (c : Context) (key : String) : String := (c.request key).getD ""

/-- Modelled from the spec: the command `SetHeader` of `yee.Context`, "set outbound
response header name to value (idempotent per name; last call wins)". -/
def SetHeader (c : Context) (key value : String) : Context :=
  { c with
    response := fun k => if k = key then some value else c.response k
    calls := c.calls ++ [Call.setHeader key value] }

/-- Modelled from the spec: the command `Next` of `yee.Context`, the invocation of the
next stage in the chain, which yields that stage's result. -/
def Next (c : Context) : Context × Option Error :=
  ({ c with calls := c.calls ++ [Call.next] }, c.downstream)

end Context

/-- The type `yee.HandlerFunc`: a handler and the flag marking it as middleware. -/
structure HandlerFunc where
  Func : Context → Context × Option Error
  IsMiddleware : Bool

/-! ## `middleware/secure.go` -/

/-- The struct `SecureConfig`. -/
structure SecureConfig where
  XSSProtection : String
  ContentTypeNosniff : String
  XFrameOptions : String
  HSTSMaxAge : Int
  HSTSExcludeSubdomains : Bool
  ContentSecurityPolicy : String
  CSPReportOnly : Bool
  HSTSPreloadEnabled : Bool
  ReferrerPolicy : String
  deriving DecidableEq, Repr

/-- The variable `DefaultSecureConfig`; fields the Go literal leaves out take their
zero value. -/
def DefaultSecureConfig : SecureConfig :=
  { XSSProtection := "1; mode=block"
    ContentTypeNosniff := "nosniff"
    XFrameOptions := "SAMEORIGIN"
    HSTSMaxAge := 0
    HSTSExcludeSubdomains := false
    ContentSecurityPolicy := ""
    CSPReportOnly := false
    HSTSPreloadEnabled := false
    ReferrerPolicy := "" }

/-- The verb `%d` of `fmt.Sprintf` on an `int`: decimal digits, with a leading minus
sign for a negative number. -/
def decimal (n : Int) : String :=
  match n with
  | Int.ofNat m => Nat.repr m
  | Int.negSucc m => "-" ++ Nat.repr (m + 1)

/-- The value built in lines 58-65 of `secure.go`:
`fmt.Sprintf("max-age=%d%s", config.HSTSMaxAge, subdomains)`. -/
def hstsValue (config : SecureConfig) : String :=
  let subdomains := ""
  let subdomains := if !config.HSTSExcludeSubdomains then "; includeSubdomains" else subdomains
  let subdomains := if config.HSTSPreloadEnabled then subdomains ++ "; preload" else subdomains
  "max-age=" ++ decimal config.HSTSMaxAge ++ subdomains

/-- The function `SecureWithConfig`. -/
def SecureWithConfig (config : SecureConfig) : HandlerFunc :=
  { Func := fun c =>
      let c := if config.XSSProtection ≠ "" then
          c.SetHeader HeaderXXSSProtection config.XSSProtection else c
      let c := if config.ContentTypeNosniff ≠ "" then
          c.SetHeader HeaderXContentTypeOptions config.ContentTypeNosniff else c
      let c := if config.XFrameOptions ≠ "" then
          c.SetHeader HeaderXFrameOptions config.XFrameOptions else c
      let c := if (c.IsTls || c.GetHeader HeaderXForwardedProto == "https")
            && config.HSTSMaxAge != 0 then
          c.SetHeader HeaderStrictTransportSecurity (hstsValue config) else c
      let c := if config.ContentSecurityPolicy ≠ "" then
          (if config.CSPReportOnly then
            c.SetHeader HeaderContentSecurityPolicyReportOnly config.ContentSecurityPolicy
          else
            c.SetHeader HeaderContentSecurityPolicy config.ContentSecurityPolicy)
        else c
      let c := if config.ReferrerPolicy ≠ "" then
          c.SetHeader HeaderReferrerPolicy config.ReferrerPolicy else c
      (c, none)
    IsMiddleware := true }

/-- The function `Secure`. -/
def Secure : HandlerFunc := SecureWithConfig DefaultSecureConfig

/-- The commands issued on the exchange between the state `before` and the later
state `after`. -/
def issued (before after : Context) : List Call :=
  after.calls.drop before.calls.length

/-- Lines 45-47 of `secure.go`, the guarded assignment of `X-XSS-Protection`. -/
def xssClause (config : SecureConfig) (c : Context) : Context :=
  if config.XSSProtection ≠ "" then
    c.SetHeader HeaderXXSSProtection config.XSSProtection else c

/-- Lines 49-51 of `secure.go`, the guarded assignment of `X-Content-Type-Options`. -/
def nosniffClause (config : SecureConfig) (c : Context) : Context :=
  if config.ContentTypeNosniff ≠ "" then
    c.SetHeader HeaderXContentTypeOptions config.ContentTypeNosniff else c

/-- Lines 53-55 of `secure.go`, the guarded assignment of `X-Frame-Options`. -/
def frameClause (config : SecureConfig) (c : Context) : Context :=
  if config.XFrameOptions ≠ "" then
    c.SetHeader HeaderXFrameOptions config.XFrameOptions else c

/-- Lines 57-66 of `secure.go`, the guarded assignment of `Strict-Transport-Security`. -/
def hstsClause (config : SecureConfig) (c : Context) : Context :=
  if (c.IsTls || c.GetHeader HeaderXForwardedProto == "https")
      && config.HSTSMaxAge != 0 then
    c.SetHeader HeaderStrictTransportSecurity (hstsValue config) else c

/-- Lines 70-76 of `secure.go`, the guarded assignment of one of the two CSP headers. -/
def cspClause (config : SecureConfig) (c : Context) : Context :=
  if config.ContentSecurityPolicy ≠ "" then
    (if config.CSPReportOnly then
      c.SetHeader HeaderContentSecurityPolicyReportOnly config.ContentSecurityPolicy
    else
      c.SetHeader HeaderContentSecurityPolicy config.ContentSecurityPolicy)
  else c

/-- Lines 79-81 of `secure.go`, the guarded assignment of `Referrer-Policy`. -/
def referrerClause (config : SecureConfig) (c : Context) : Context :=
  if config.ReferrerPolicy ≠ "" then
    c.SetHeader HeaderReferrerPolicy config.ReferrerPolicy else c

/-- The guard of the transport-security clause, as a proposition. -/
def hstsApplies (config : SecureConfig) (c : Context) : Prop :=
  (c.IsTls = true ∨ c.GetHeader HeaderXForwardedProto = "https") ∧ config.HSTSMaxAge ≠ 0

instance (config : SecureConfig) (c : Context) : Decidable (hstsApplies config c) := by
  unfold hstsApplies; infer_instance

/-- The header assignments the handler makes on the exchange `c`, in source order. -/
def assignments (config : SecureConfig) (c : Context) : List Call :=
  (if config.XSSProtection ≠ "" then
      [Call.setHeader HeaderXXSSProtection config.XSSProtection] else [])
  ++ (if config.ContentTypeNosniff ≠ "" then
      [Call.setHeader HeaderXContentTypeOptions config.ContentTypeNosniff] else [])
  ++ (if config.XFrameOptions ≠ "" then
      [Call.setHeader HeaderXFrameOptions config.XFrameOptions] else [])
  ++ (if hstsApplies config c then
      [Call.setHeader HeaderStrictTransportSecurity (hstsValue config)] else [])
  ++ (if config.ContentSecurityPolicy ≠ "" then
      [Call.setHeader (if config.CSPReportOnly then HeaderContentSecurityPolicyReportOnly
        else HeaderContentSecurityPolicy) config.ContentSecurityPolicy] else [])
  ++ (if config.ReferrerPolicy ≠ "" then
      [Call.setHeader HeaderReferrerPolicy config.ReferrerPolicy] else [])

/-- The six guarded assignments of `SecureWithConfig`, in source order. -/
def clauses (config : SecureConfig) : List (Context → Context) :=
  [xssClause config, nosniffClause config, frameClause config,
    hstsClause config, cspClause config, referrerClause config]

/-- Applies transformations of the exchange one after the other, from left to right. -/
def applyAll (fs : List (Context → Context)) (c : Context) : Context :=
  fs.foldl (fun acc f => f acc) c

/-- Two exchanges with the same TLS flag, the same inbound headers and the same
outbound header sink. -/
def sameExchange (c₁ c₂ : Context) : Prop :=
  c₁.tls = c₂.tls ∧ c₁.request = c₂.request ∧ c₁.response = c₂.response

/-! ## Sample exchanges and configurations -/

/-- An exchange with empty header maps on which nothing has been issued yet. -/
def plainExchange (tls : Bool) : Context :=
  { tls := tls
    request := fun _ => none
    response := fun _ => none
    calls := []
    downstream := none }

/-- An exchange that is not TLS-terminated and carries `X-Forwarded-Proto: proto`. -/
def forwardedExchange (proto : String) : Context :=
  { tls := false
    request := fun k => if k = HeaderXForwardedProto then some proto else none
    response := fun _ => none
    calls := []
    downstream := none }

/-- A configuration with only the three transport-security fields set. -/
def hstsOnly (maxAge : Int) (exclude preload : Bool) : SecureConfig :=
  { XSSProtection := ""
    ContentTypeNosniff := ""
    XFrameOptions := ""
    HSTSMaxAge := maxAge
    HSTSExcludeSubdomains := exclude
    ContentSecurityPolicy := ""
    CSPReportOnly := false
    HSTSPreloadEnabled := preload
    ReferrerPolicy := "" }

/-- An exchange whose next stage reports the error `unauthorized`. -/
def failingExchange : Context :=
  { tls := false
    request := fun _ => none
    response := fun _ => none
    calls := []
    downstream := some "unauthorized" }

/-- An exchange whose sink already holds `Server: yee` and `X-Frame-Options: DENY`. -/
def presetExchange : Context :=
  { tls := false
    request := fun _ => none
    response := fun k =>
      if k = "Server" then some "yee"
      else if k = HeaderXFrameOptions then some "DENY" else none
    calls := []
    downstream := none }

/-- A configuration that sets `X-Frame-Options: DENY` and a referrer policy only. -/
def denyFrames : SecureConfig :=
  { XSSProtection := ""
    ContentTypeNosniff := ""
    XFrameOptions := "DENY"
    HSTSMaxAge := 0
    HSTSExcludeSubdomains := false
    ContentSecurityPolicy := ""
    CSPReportOnly := false
    HSTSPreloadEnabled := false
    ReferrerPolicy := "no-referrer" }

/-- A configuration in which all six clauses apply on a secure request. -/
def fullConfig : SecureConfig :=
  { XSSProtection := "1; mode=block"
    ContentTypeNosniff := "nosniff"
    XFrameOptions := "SAMEORIGIN"
    HSTSMaxAge := 31536000
    HSTSExcludeSubdomains := false
    ContentSecurityPolicy := "default-src 'self'"
    CSPReportOnly := false
    HSTSPreloadEnabled := true
    ReferrerPolicy := "no-referrer" }

/-! ## Basic facts about the exchange -/

@[simp] theorem Context.SetHeader_tls (c : Context) (k v : String) :
    (c.SetHeader k v).tls = c.tls := rfl

@[simp] theorem Context.SetHeader_request (c : Context) (k v : String) :
    (c.SetHeader k v).request = c.request := rfl

@[simp] theorem Context.SetHeader_downstream (c : Context) (k v : String) :
    (c.SetHeader k v).downstream = c.downstream := rfl

@[simp] theorem Context.SetHeader_calls (c : Context) (k v : String) :
    (c.SetHeader k v).calls = c.calls ++ [Call.setHeader k v] := rfl

@[simp] theorem Context.SetHeader_response (c : Context) (k v j : String) :
    (c.SetHeader k v).response j = if j = k then some v else c.response j := rfl

@[simp] theorem Context.SetHeader_IsTls (c : Context) (k v : String) :
    (c.SetHeader k v).IsTls = c.IsTls := rfl

@[simp] theorem Context.SetHeader_GetHeader (c : Context) (k v j : String) :
    (c.SetHeader k v).GetHeader j = c.GetHeader j := rfl

/-- The directives of the transport-security value, written out by flag. -/
theorem hstsValue_eq (config : SecureConfig) :
    hstsValue config =
      "max-age=" ++ decimal config.HSTSMaxAge
        ++ (if config.HSTSExcludeSubdomains then "" else "; includeSubdomains")
        ++ (if config.HSTSPreloadEnabled then "; preload" else "") := by
  unfold hstsValue
  cases config.HSTSExcludeSubdomains <;> cases config.HSTSPreloadEnabled <;>
    simp [String.append_assoc]

/-- The handler is the six guarded assignments in source order, with a `nil` result. -/
theorem SecureWithConfig_Func (config : SecureConfig) (c : Context) :
    (SecureWithConfig config).Func c =
      (referrerClause config (cspClause config (hstsClause config
        (frameClause config (nosniffClause config (xssClause config c))))), none) := rfl

theorem xssClause_response (config : SecureConfig) (c : Context) (j : String) :
    (xssClause config c).response j =
      if config.XSSProtection ≠ "" ∧ j = HeaderXXSSProtection
      then some config.XSSProtection else c.response j := by
  unfold xssClause; split_ifs <;> simp_all

theorem nosniffClause_response (config : SecureConfig) (c : Context) (j : String) :
    (nosniffClause config c).response j =
      if config.ContentTypeNosniff ≠ "" ∧ j = HeaderXContentTypeOptions
      then some config.ContentTypeNosniff else c.response j := by
  unfold nosniffClause; split_ifs <;> simp_all

theorem frameClause_response (config : SecureConfig) (c : Context) (j : String) :
    (frameClause config c).response j =
      if config.XFrameOptions ≠ "" ∧ j = HeaderXFrameOptions
      then some config.XFrameOptions else c.response j := by
  unfold frameClause; split_ifs <;> simp_all

theorem hstsGuard_iff (config : SecureConfig) (c : Context) :
    ((c.IsTls || c.GetHeader HeaderXForwardedProto == "https")
      && config.HSTSMaxAge != 0) = true ↔ hstsApplies config c := by
  simp [hstsApplies]

theorem hstsClause_response (config : SecureConfig) (c : Context) (j : String) :
    (hstsClause config c).response j =
      if hstsApplies config c ∧ j = HeaderStrictTransportSecurity
      then some (hstsValue config) else c.response j := by
  unfold hstsClause
  rw [if_congr (hstsGuard_iff config c) rfl rfl]
  split_ifs <;> simp_all

theorem cspClause_response (config : SecureConfig) (c : Context) (j : String) :
    (cspClause config c).response j =
      if config.ContentSecurityPolicy ≠ "" ∧
          j = (if config.CSPReportOnly then HeaderContentSecurityPolicyReportOnly
                else HeaderContentSecurityPolicy)
      then some config.ContentSecurityPolicy else c.response j := by
  unfold cspClause; split_ifs <;> simp_all

theorem referrerClause_response (config : SecureConfig) (c : Context) (j : String) :
    (referrerClause config c).response j =
      if config.ReferrerPolicy ≠ "" ∧ j = HeaderReferrerPolicy
      then some config.ReferrerPolicy else c.response j := by
  unfold referrerClause; split_ifs <;> simp_all

theorem xssClause_hstsApplies (config cfg : SecureConfig) (c : Context) :
    hstsApplies cfg (xssClause config c) ↔ hstsApplies cfg c := by
  unfold xssClause hstsApplies; split_ifs <;> simp

theorem nosniffClause_hstsApplies (config cfg : SecureConfig) (c : Context) :
    hstsApplies cfg (nosniffClause config c) ↔ hstsApplies cfg c := by
  unfold nosniffClause hstsApplies; split_ifs <;> simp

theorem frameClause_hstsApplies (config cfg : SecureConfig) (c : Context) :
    hstsApplies cfg (frameClause config c) ↔ hstsApplies cfg c := by
  unfold frameClause hstsApplies; split_ifs <;> simp

/-- The outbound header sink after the handler has run, header by header. -/
theorem SecureWithConfig_response (config : SecureConfig) (c : Context) (j : String) :
    ((SecureWithConfig config).Func c).1.response j =
      if config.ReferrerPolicy ≠ "" ∧ j = HeaderReferrerPolicy then
        some config.ReferrerPolicy
      else if config.ContentSecurityPolicy ≠ "" ∧
          j = (if config.CSPReportOnly then HeaderContentSecurityPolicyReportOnly
                else HeaderContentSecurityPolicy) then
        some config.ContentSecurityPolicy
      else if hstsApplies config c ∧ j = HeaderStrictTransportSecurity then
        some (hstsValue config)
      else if config.XFrameOptions ≠ "" ∧ j = HeaderXFrameOptions then
        some config.XFrameOptions
      else if config.ContentTypeNosniff ≠ "" ∧ j = HeaderXContentTypeOptions then
        some config.ContentTypeNosniff
      else if config.XSSProtection ≠ "" ∧ j = HeaderXXSSProtection then
        some config.XSSProtection
      else c.response j := by
  rw [SecureWithConfig_Func]
  simp only [referrerClause_response, cspClause_response, hstsClause_response,
    frameClause_response, nosniffClause_response, xssClause_response,
    frameClause_hstsApplies, nosniffClause_hstsApplies, xssClause_hstsApplies]

theorem xssClause_calls (config : SecureConfig) (c : Context) :
    (xssClause config c).calls = c.calls ++
      (if config.XSSProtection ≠ "" then
        [Call.setHeader HeaderXXSSProtection config.XSSProtection] else []) := by
  unfold xssClause; split_ifs <;> simp

theorem nosniffClause_calls (config : SecureConfig) (c : Context) :
    (nosniffClause config c).calls = c.calls ++
      (if config.ContentTypeNosniff ≠ "" then
        [Call.setHeader HeaderXContentTypeOptions config.ContentTypeNosniff] else []) := by
  unfold nosniffClause; split_ifs <;> simp

theorem frameClause_calls (config : SecureConfig) (c : Context) :
    (frameClause config c).calls = c.calls ++
      (if config.XFrameOptions ≠ "" then
        [Call.setHeader HeaderXFrameOptions config.XFrameOptions] else []) := by
  unfold frameClause; split_ifs <;> simp

theorem hstsClause_calls (config : SecureConfig) (c : Context) :
    (hstsClause config c).calls = c.calls ++
      (if hstsApplies config c then
        [Call.setHeader HeaderStrictTransportSecurity (hstsValue config)] else []) := by
  unfold hstsClause
  rw [if_congr (hstsGuard_iff config c) rfl rfl]
  split_ifs <;> simp

theorem cspClause_calls (config : SecureConfig) (c : Context) :
    (cspClause config c).calls = c.calls ++
      (if config.ContentSecurityPolicy ≠ "" then
        [Call.setHeader (if config.CSPReportOnly then HeaderContentSecurityPolicyReportOnly
          else HeaderContentSecurityPolicy) config.ContentSecurityPolicy] else []) := by
  unfold cspClause; split_ifs <;> simp

theorem referrerClause_calls (config : SecureConfig) (c : Context) :
    (referrerClause config c).calls = c.calls ++
      (if config.ReferrerPolicy ≠ "" then
        [Call.setHeader HeaderReferrerPolicy config.ReferrerPolicy] else []) := by
  unfold referrerClause; split_ifs <;> simp

/-- The record of commands after the handler has run: the earlier record followed by
the handler's own assignments. -/
theorem SecureWithConfig_calls (config : SecureConfig) (c : Context) :
    ((SecureWithConfig config).Func c).1.calls = c.calls ++ assignments config c := by
  rw [SecureWithConfig_Func]
  simp only [referrerClause_calls, cspClause_calls, hstsClause_calls,
    frameClause_calls, nosniffClause_calls, xssClause_calls,
    frameClause_hstsApplies, nosniffClause_hstsApplies, xssClause_hstsApplies,
    assignments, List.append_assoc]

/-- The commands the handler issues are exactly its assignments. -/
theorem issued_SecureWithConfig (config : SecureConfig) (c : Context) :
    issued c ((SecureWithConfig config).Func c).1 = assignments config c := by
  unfold issued
  rw [SecureWithConfig_calls]
  simp

theorem mem_ite_singleton {α : Type} (p : Prop) [Decidable p] (a x : α) :
    a ∈ (if p then [x] else []) ↔ p ∧ a = x := by
  by_cases h : p <;> simp [h]

/-- Membership in the handler's assignments, clause by clause. -/
theorem mem_assignments (config : SecureConfig) (c : Context) (k v : String) :
    Call.setHeader k v ∈ assignments config c ↔
      (config.XSSProtection ≠ "" ∧ k = HeaderXXSSProtection ∧ v = config.XSSProtection)
      ∨ (config.ContentTypeNosniff ≠ "" ∧ k = HeaderXContentTypeOptions
          ∧ v = config.ContentTypeNosniff)
      ∨ (config.XFrameOptions ≠ "" ∧ k = HeaderXFrameOptions ∧ v = config.XFrameOptions)
      ∨ (hstsApplies config c ∧ k = HeaderStrictTransportSecurity ∧ v = hstsValue config)
      ∨ (config.ContentSecurityPolicy ≠ "" ∧
          k = (if config.CSPReportOnly then HeaderContentSecurityPolicyReportOnly
                else HeaderContentSecurityPolicy) ∧ v = config.ContentSecurityPolicy)
      ∨ (config.ReferrerPolicy ≠ "" ∧ k = HeaderReferrerPolicy ∧ v = config.ReferrerPolicy) := by
  unfold assignments
  simp only [List.mem_append, mem_ite_singleton, Call.setHeader.injEq, or_assoc]

/-- A `Strict-Transport-Security` assignment is made exactly when the guard holds, and
then with the value `hstsValue`. -/
theorem mem_assignments_hsts (config : SecureConfig) (c : Context) (v : String) :
    Call.setHeader HeaderStrictTransportSecurity v ∈ assignments config c ↔
      hstsApplies config c ∧ v = hstsValue config := by
  rw [mem_assignments]
  cases config.CSPReportOnly <;>
    simp [HeaderXXSSProtection, HeaderXContentTypeOptions, HeaderXFrameOptions,
      HeaderStrictTransportSecurity, HeaderContentSecurityPolicy,
      HeaderContentSecurityPolicyReportOnly, HeaderReferrerPolicy]

theorem hstsClause_hstsApplies (config cfg : SecureConfig) (c : Context) :
    hstsApplies cfg (hstsClause config c) ↔ hstsApplies cfg c := by
  unfold hstsClause hstsApplies; split_ifs <;> simp

theorem cspClause_hstsApplies (config cfg : SecureConfig) (c : Context) :
    hstsApplies cfg (cspClause config c) ↔ hstsApplies cfg c := by
  unfold cspClause hstsApplies; split_ifs <;> simp

theorem referrerClause_hstsApplies (config cfg : SecureConfig) (c : Context) :
    hstsApplies cfg (referrerClause config c) ↔ hstsApplies cfg c := by
  unfold referrerClause hstsApplies; split_ifs <;> simp

/-- The handler does not change what the transport-security guard reads. -/
theorem SecureWithConfig_hstsApplies (config cfg : SecureConfig) (c : Context) :
    hstsApplies cfg ((SecureWithConfig config).Func c).1 ↔ hstsApplies cfg c := by
  rw [SecureWithConfig_Func]
  simp only [referrerClause_hstsApplies, cspClause_hstsApplies, hstsClause_hstsApplies,
    frameClause_hstsApplies, nosniffClause_hstsApplies, xssClause_hstsApplies]

theorem xssClause_downstream (config : SecureConfig) (c : Context) :
    (xssClause config c).downstream = c.downstream := by
  unfold xssClause; split_ifs <;> rfl

theorem nosniffClause_downstream (config : SecureConfig) (c : Context) :
    (nosniffClause config c).downstream = c.downstream := by
  unfold nosniffClause; split_ifs <;> rfl

theorem frameClause_downstream (config : SecureConfig) (c : Context) :
    (frameClause config c).downstream = c.downstream := by
  unfold frameClause; split_ifs <;> rfl

theorem hstsClause_downstream (config : SecureConfig) (c : Context) :
    (hstsClause config c).downstream = c.downstream := by
  unfold hstsClause; split_ifs <;> rfl

theorem cspClause_downstream (config : SecureConfig) (c : Context) :
    (cspClause config c).downstream = c.downstream := by
  unfold cspClause; split_ifs <;> rfl

theorem referrerClause_downstream (config : SecureConfig) (c : Context) :
    (referrerClause config c).downstream = c.downstream := by
  unfold referrerClause; split_ifs <;> rfl

/-- The handler does not change the pending result of the next stage. -/
theorem SecureWithConfig_downstream (config : SecureConfig) (c : Context) :
    ((SecureWithConfig config).Func c).1.downstream = c.downstream := by
  rw [SecureWithConfig_Func]
  simp only [referrerClause_downstream, cspClause_downstream, hstsClause_downstream,
    frameClause_downstream, nosniffClause_downstream, xssClause_downstream]

/-- The handler's result is always `nil`. -/
theorem SecureWithConfig_result (config : SecureConfig) (c : Context) :
    ((SecureWithConfig config).Func c).2 = none := rfl

/-! ### Decimal digits -/

theorem digitChar_ne_zero (n : Nat) (h0 : 0 < n) (h10 : n < 10) : Nat.digitChar n ≠ '0' := by
  interval_cases n <;> decide

/-- The first digit `Nat.toDigitsCore` produces for a positive number is not `0`. -/
theorem toDigitsCore_head (fuel : Nat) : ∀ (n : Nat) (ds : List Char), 0 < n → n < fuel →
    ∃ ch rest, Nat.toDigitsCore 10 fuel n ds = ch :: rest ∧ ch ≠ '0' := by
  induction fuel with
  | zero => intro n ds _ h; omega
  | succ fuel ih =>
    intro n ds hpos hlt
    simp only [Nat.toDigitsCore]
    by_cases hq : n / 10 = 0
    · rw [if_pos hq]
      have hn : n < 10 := by omega
      exact ⟨_, ds, rfl, digitChar_ne_zero _ (by omega) (Nat.mod_lt _ (by decide))⟩
    · rw [if_neg hq]
      exact ih (n / 10) _ (by omega) (by omega)

/-- The decimal form of a number other than 0 does not start with the digit `0`. -/
theorem decimal_head (n : Int) (h : n ≠ 0) :
    ∃ ch rest, (decimal n).data = ch :: rest ∧ ch ≠ '0' := by
  cases n with
  | ofNat m =>
    have hm : 0 < m := by
      rcases Nat.eq_zero_or_pos m with h0 | h0
      · subst h0; exact absurd rfl h
      · exact h0
    exact toDigitsCore_head (m + 1) m [] hm (Nat.lt_succ_self m)
  | negSucc m =>
    exact ⟨'-', (Nat.repr (m + 1)).data, rfl, by decide⟩

/-- A transport-security value for a max-age other than 0 starts with `max-age=` and a
character that is not the digit `0`. -/
theorem hstsValue_data (config : SecureConfig) (h : config.HSTSMaxAge ≠ 0) :
    ∃ ch rest, (hstsValue config).data = "max-age=".data ++ ch :: rest ∧ ch ≠ '0' := by
  obtain ⟨ch, rest, hd, hch⟩ := decimal_head config.HSTSMaxAge h
  refine ⟨ch, rest ++ ((if config.HSTSExcludeSubdomains then "" else "; includeSubdomains")
    ++ (if config.HSTSPreloadEnabled then "; preload" else "")).data, ?_, hch⟩
  rw [hstsValue_eq]
  simp only [String.data_append, hd, List.append_assoc, List.cons_append]

/-! ## Properties of the handler -/

/-- C1: on a request that is TLS-terminated or whose `X-Forwarded-Proto` is `https`,
with `HSTSMaxAge` different from 0, the handler leaves `Strict-Transport-Security`
equal to `max-age=` followed by the decimal max-age, then `; includeSubdomains`
unless `HSTSExcludeSubdomains`, then `; preload` if `HSTSPreloadEnabled`. -/
theorem hsts_header_value (config : SecureConfig) (c : Context)
    (hreq : c.IsTls = true ∨ c.GetHeader HeaderXForwardedProto = "https")
    (hage : config.HSTSMaxAge ≠ 0) :
    ((SecureWithConfig config).Func c).1.response HeaderStrictTransportSecurity =
      some ("max-age=" ++ decimal config.HSTSMaxAge
        ++ (if config.HSTSExcludeSubdomains then "" else "; includeSubdomains")
        ++ (if config.HSTSPreloadEnabled then "; preload" else "")) := by
  rw [← hstsValue_eq, SecureWithConfig_response]
  have happ : hstsApplies config c := ⟨hreq, hage⟩
  cases config.CSPReportOnly <;>
    simp [happ, HeaderStrictTransportSecurity, HeaderContentSecurityPolicy,
      HeaderContentSecurityPolicyReportOnly, HeaderReferrerPolicy]

/-- Witness for C1: the three transport-security values of the specification, on a
TLS-terminated exchange and on a forwarded-https one. -/
theorem hsts_header_value_witness :
    ((SecureWithConfig (hstsOnly 31536000 false false)).Func (plainExchange true)).1.response
        HeaderStrictTransportSecurity = some "max-age=31536000; includeSubdomains"
    ∧ ((SecureWithConfig (hstsOnly 31536000 true false)).Func
        (forwardedExchange "https")).1.response
        HeaderStrictTransportSecurity = some "max-age=31536000"
    ∧ ((SecureWithConfig (hstsOnly 31536000 false true)).Func (plainExchange true)).1.response
        HeaderStrictTransportSecurity = some "max-age=31536000; includeSubdomains; preload" :=
  ⟨(hsts_header_value (hstsOnly 31536000 false false) (plainExchange true)
      (Or.inl rfl) (by decide)).trans (by decide),
   (hsts_header_value (hstsOnly 31536000 true false) (forwardedExchange "https")
      (Or.inr (by decide)) (by decide)).trans (by decide),
   (hsts_header_value (hstsOnly 31536000 false true) (plainExchange true)
      (Or.inl rfl) (by decide)).trans (by decide)⟩

/-- C2: the handler writes `Strict-Transport-Security` if and only if the connection is
TLS-terminated or `X-Forwarded-Proto` is exactly `https`, and `HSTSMaxAge` is not 0;
otherwise that header is left exactly as it was before the call. -/
theorem hsts_written_iff (config : SecureConfig) (c : Context) :
    ((∃ v, Call.setHeader HeaderStrictTransportSecurity v ∈
          issued c ((SecureWithConfig config).Func c).1) ↔
        ((c.IsTls = true ∨ c.GetHeader HeaderXForwardedProto = "https")
          ∧ config.HSTSMaxAge ≠ 0))
    ∧ (¬ ((c.IsTls = true ∨ c.GetHeader HeaderXForwardedProto = "https")
          ∧ config.HSTSMaxAge ≠ 0) →
        ((SecureWithConfig config).Func c).1.response HeaderStrictTransportSecurity
          = c.response HeaderStrictTransportSecurity) := by
  refine ⟨?_, ?_⟩
  · rw [issued_SecureWithConfig]
    simp only [mem_assignments_hsts]
    constructor
    · rintro ⟨v, h, -⟩; exact h
    · intro h; exact ⟨hstsValue config, h, rfl⟩
  · intro h
    have happ : ¬ hstsApplies config c := h
    rw [SecureWithConfig_response]
    cases config.CSPReportOnly <;>
      simp [happ, HeaderStrictTransportSecurity, HeaderContentSecurityPolicy,
        HeaderContentSecurityPolicyReportOnly, HeaderReferrerPolicy,
        HeaderXXSSProtection, HeaderXContentTypeOptions, HeaderXFrameOptions]

/-- Witness for C2: with max-age 600 and a request that is not TLS-terminated and
carries `X-Forwarded-Proto: HTTPS`, the header stays absent and is not written. -/
theorem hsts_written_iff_witness :
    ¬ (((forwardedExchange "HTTPS").IsTls = true
          ∨ (forwardedExchange "HTTPS").GetHeader HeaderXForwardedProto = "https")
        ∧ (hstsOnly 600 false false).HSTSMaxAge ≠ 0)
    ∧ ((SecureWithConfig (hstsOnly 600 false false)).Func
        (forwardedExchange "HTTPS")).1.response HeaderStrictTransportSecurity = none
    ∧ ¬ ∃ v, Call.setHeader HeaderStrictTransportSecurity v ∈
        issued (forwardedExchange "HTTPS")
          ((SecureWithConfig (hstsOnly 600 false false)).Func (forwardedExchange "HTTPS")).1 :=
  ⟨by decide,
   (hsts_written_iff (hstsOnly 600 false false) (forwardedExchange "HTTPS")).2 (by decide),
   fun h => absurd ((hsts_written_iff (hstsOnly 600 false false)
      (forwardedExchange "HTTPS")).1.mp h) (by decide)⟩

/-- C3: each of `XSSProtection`, `ContentTypeNosniff`, `XFrameOptions` and
`ReferrerPolicy` that is a non-empty string is, after the handler has run, the exact
value of `X-XSS-Protection`, `X-Content-Type-Options`, `X-Frame-Options` and
`Referrer-Policy` respectively. -/
theorem literal_headers_copied (config : SecureConfig) (c : Context) :
    (config.XSSProtection ≠ "" →
      ((SecureWithConfig config).Func c).1.response HeaderXXSSProtection
        = some config.XSSProtection)
    ∧ (config.ContentTypeNosniff ≠ "" →
      ((SecureWithConfig config).Func c).1.response HeaderXContentTypeOptions
        = some config.ContentTypeNosniff)
    ∧ (config.XFrameOptions ≠ "" →
      ((SecureWithConfig config).Func c).1.response HeaderXFrameOptions
        = some config.XFrameOptions)
    ∧ (config.ReferrerPolicy ≠ "" →
      ((SecureWithConfig config).Func c).1.response HeaderReferrerPolicy
        = some config.ReferrerPolicy) := by
  refine ⟨?_, ?_, ?_, ?_⟩ <;> intro h <;> rw [SecureWithConfig_response] <;>
    cases config.CSPReportOnly <;>
    simp [h, HeaderXXSSProtection, HeaderXContentTypeOptions, HeaderXFrameOptions,
      HeaderStrictTransportSecurity, HeaderContentSecurityPolicy,
      HeaderContentSecurityPolicyReportOnly, HeaderReferrerPolicy]

/-- Witness for C3: the default values with a referrer policy added, on a TLS exchange. -/
theorem literal_headers_copied_witness :
    ((SecureWithConfig { DefaultSecureConfig with ReferrerPolicy := "no-referrer" }).Func
        (plainExchange true)).1.response HeaderXXSSProtection = some "1; mode=block"
    ∧ ((SecureWithConfig { DefaultSecureConfig with ReferrerPolicy := "no-referrer" }).Func
        (plainExchange true)).1.response HeaderXContentTypeOptions = some "nosniff"
    ∧ ((SecureWithConfig { DefaultSecureConfig with ReferrerPolicy := "no-referrer" }).Func
        (plainExchange true)).1.response HeaderXFrameOptions = some "SAMEORIGIN"
    ∧ ((SecureWithConfig { DefaultSecureConfig with ReferrerPolicy := "no-referrer" }).Func
        (plainExchange true)).1.response HeaderReferrerPolicy = some "no-referrer" :=
  ⟨(literal_headers_copied { DefaultSecureConfig with ReferrerPolicy := "no-referrer" }
      (plainExchange true)).1 (by decide),
   (literal_headers_copied { DefaultSecureConfig with ReferrerPolicy := "no-referrer" }
      (plainExchange true)).2.1 (by decide),
   (literal_headers_copied { DefaultSecureConfig with ReferrerPolicy := "no-referrer" }
      (plainExchange true)).2.2.1 (by decide),
   (literal_headers_copied { DefaultSecureConfig with ReferrerPolicy := "no-referrer" }
      (plainExchange true)).2.2.2 (by decide)⟩

/-- C4: with a non-empty `ContentSecurityPolicy` and a sink that starts with neither
CSP header, `CSPReportOnly = true` leaves `Content-Security-Policy-Report-Only` equal
to the configured string and `Content-Security-Policy` absent, and
`CSPReportOnly = false` leaves `Content-Security-Policy` equal to the configured
string and `Content-Security-Policy-Report-Only` absent. -/
theorem csp_header_selection (config : SecureConfig) (c : Context)
    (hcsp : config.ContentSecurityPolicy ≠ "")
    (henf : c.response HeaderContentSecurityPolicy = none)
    (hrep : c.response HeaderContentSecurityPolicyReportOnly = none) :
    (config.CSPReportOnly = true →
      ((SecureWithConfig config).Func c).1.response HeaderContentSecurityPolicyReportOnly
          = some config.ContentSecurityPolicy
        ∧ ((SecureWithConfig config).Func c).1.response HeaderContentSecurityPolicy = none)
    ∧ (config.CSPReportOnly = false →
      ((SecureWithConfig config).Func c).1.response HeaderContentSecurityPolicy
          = some config.ContentSecurityPolicy
        ∧ ((SecureWithConfig config).Func c).1.response
            HeaderContentSecurityPolicyReportOnly = none) := by
  refine ⟨?_, ?_⟩ <;> intro h <;> refine ⟨?_, ?_⟩ <;>
    rw [SecureWithConfig_response] <;>
    simp [h, hcsp, HeaderXXSSProtection, HeaderXContentTypeOptions, HeaderXFrameOptions,
      HeaderStrictTransportSecurity, HeaderContentSecurityPolicy,
      HeaderContentSecurityPolicyReportOnly, HeaderReferrerPolicy] <;>
    first
      | exact henf
      | exact hrep

/-- Witness for C4: the policy `default-src 'self'` in report-only and in enforcing
mode, on an exchange with an empty sink. -/
theorem csp_header_selection_witness :
    (((SecureWithConfig { DefaultSecureConfig with
          ContentSecurityPolicy := "default-src 'self'", CSPReportOnly := true }).Func
        (plainExchange false)).1.response HeaderContentSecurityPolicyReportOnly
          = some "default-src 'self'"
      ∧ ((SecureWithConfig { DefaultSecureConfig with
          ContentSecurityPolicy := "default-src 'self'", CSPReportOnly := true }).Func
        (plainExchange false)).1.response HeaderContentSecurityPolicy = none)
    ∧ (((SecureWithConfig { DefaultSecureConfig with
          ContentSecurityPolicy := "default-src 'self'", CSPReportOnly := false }).Func
        (plainExchange false)).1.response HeaderContentSecurityPolicy
          = some "default-src 'self'"
      ∧ ((SecureWithConfig { DefaultSecureConfig with
          ContentSecurityPolicy := "default-src 'self'", CSPReportOnly := false }).Func
        (plainExchange false)).1.response HeaderContentSecurityPolicyReportOnly = none) :=
  ⟨(csp_header_selection { DefaultSecureConfig with
        ContentSecurityPolicy := "default-src 'self'", CSPReportOnly := true }
      (plainExchange false) (by decide) rfl rfl).1 rfl,
   (csp_header_selection { DefaultSecureConfig with
        ContentSecurityPolicy := "default-src 'self'", CSPReportOnly := false }
      (plainExchange false) (by decide) rfl rfl).2 rfl⟩

/-- C5: with every field disabled (empty strings, max-age 0, all flags false) the
handler issues no command and leaves the response header sink, and the whole
exchange, as it was, for every request. -/
theorem disabled_config_sets_nothing (c : Context) :
    ((SecureWithConfig
        { XSSProtection := "", ContentTypeNosniff := "", XFrameOptions := "",
          HSTSMaxAge := 0, HSTSExcludeSubdomains := false, ContentSecurityPolicy := "",
          CSPReportOnly := false, HSTSPreloadEnabled := false,
          ReferrerPolicy := "" }).Func c).1.response = c.response
    ∧ issued c ((SecureWithConfig
        { XSSProtection := "", ContentTypeNosniff := "", XFrameOptions := "",
          HSTSMaxAge := 0, HSTSExcludeSubdomains := false, ContentSecurityPolicy := "",
          CSPReportOnly := false, HSTSPreloadEnabled := false,
          ReferrerPolicy := "" }).Func c).1 = []
    ∧ ((SecureWithConfig
        { XSSProtection := "", ContentTypeNosniff := "", XFrameOptions := "",
          HSTSMaxAge := 0, HSTSExcludeSubdomains := false, ContentSecurityPolicy := "",
          CSPReportOnly := false, HSTSPreloadEnabled := false,
          ReferrerPolicy := "" }).Func c).1 = c := by
  have h : ((SecureWithConfig
        { XSSProtection := "", ContentTypeNosniff := "", XFrameOptions := "",
          HSTSMaxAge := 0, HSTSExcludeSubdomains := false, ContentSecurityPolicy := "",
          CSPReportOnly := false, HSTSPreloadEnabled := false,
          ReferrerPolicy := "" }).Func c).1 = c := by
    rw [SecureWithConfig_Func]
    simp [referrerClause, cspClause, hstsClause, frameClause, nosniffClause, xssClause]
  refine ⟨by rw [h], ?_, h⟩
  rw [h]; simp [issued]

/-- C6, as stated, fails: on an exchange whose next stage reports `unauthorized`, the
handler of the default configuration does not invoke the next stage once (it invokes it
zero times) and does not return that stage's result (it returns `nil`). -/
theorem next_stage_counterexample :
    ¬ ((issued failingExchange
          ((SecureWithConfig DefaultSecureConfig).Func failingExchange).1).count Call.next = 1
        ∧ ((SecureWithConfig DefaultSecureConfig).Func failingExchange).2
            = failingExchange.downstream) := by
  decide

/-- C6, amended: for every configuration and every exchange the handler itself never
invokes the next stage (every command it issues is a header assignment), leaves the
next stage's pending result untouched, and returns `nil` whatever that result is. -/
theorem next_stage_not_invoked (config : SecureConfig) (c : Context) :
    (issued c ((SecureWithConfig config).Func c).1).count Call.next = 0
    ∧ (∀ call ∈ issued c ((SecureWithConfig config).Func c).1,
        ∃ k v, call = Call.setHeader k v)
    ∧ ((SecureWithConfig config).Func c).1.downstream = c.downstream
    ∧ ((SecureWithConfig config).Func c).2 = none := by
  have hall : ∀ call ∈ issued c ((SecureWithConfig config).Func c).1,
      ∃ k v, call = Call.setHeader k v := by
    intro call hc
    rw [issued_SecureWithConfig] at hc
    unfold assignments at hc
    simp only [List.mem_append, mem_ite_singleton] at hc
    rcases hc with ((((⟨-, h⟩ | ⟨-, h⟩) | ⟨-, h⟩) | ⟨-, h⟩) | ⟨-, h⟩) | ⟨-, h⟩ <;>
      exact ⟨_, _, h⟩
  refine ⟨?_, hall, ?_, rfl⟩
  · rw [List.count_eq_zero]
    intro hmem
    obtain ⟨k, v, h⟩ := hall _ hmem
    cases h
  · exact SecureWithConfig_downstream config c

/-- Witness for C6 amended: on the exchange whose next stage reports `unauthorized`,
every command of the default handler is a header assignment, none is an invocation of
the next stage, and the result is `nil`. -/
theorem next_stage_not_invoked_witness :
    (issued failingExchange
        ((SecureWithConfig DefaultSecureConfig).Func failingExchange).1).count Call.next = 0
    ∧ (∃ k v, Call.setHeader HeaderXFrameOptions "SAMEORIGIN" = Call.setHeader k v)
    ∧ ((SecureWithConfig DefaultSecureConfig).Func failingExchange).1.downstream
        = some "unauthorized"
    ∧ ((SecureWithConfig DefaultSecureConfig).Func failingExchange).2 = none :=
  ⟨(next_stage_not_invoked DefaultSecureConfig failingExchange).1,
   (next_stage_not_invoked DefaultSecureConfig failingExchange).2.1
      (Call.setHeader HeaderXFrameOptions "SAMEORIGIN") (by decide),
   (next_stage_not_invoked DefaultSecureConfig failingExchange).2.2.1,
   (next_stage_not_invoked DefaultSecureConfig failingExchange).2.2.2⟩

/-- C7: running the handler twice in sequence on the same exchange with the same
configuration gives the same response header map as running it once. -/
theorem SecureWithConfig_idempotent (config : SecureConfig) (c : Context) :
    ((SecureWithConfig config).Func ((SecureWithConfig config).Func c).1).1.response
      = ((SecureWithConfig config).Func c).1.response := by
  funext j
  rw [SecureWithConfig_response config ((SecureWithConfig config).Func c).1,
    SecureWithConfig_response config c]
  simp only [SecureWithConfig_hstsApplies]
  split_ifs <;> rfl

/-- C8: `DefaultSecureConfig` enables exactly the XSS, nosniff and frame-options fields,
`Secure` is `SecureWithConfig DefaultSecureConfig`, and on every request `Secure` sets
those three headers and leaves `Strict-Transport-Security`, both CSP headers and
`Referrer-Policy` as they were. -/
theorem Secure_default_behaviour (c : Context) :
    DefaultSecureConfig =
        { XSSProtection := "1; mode=block", ContentTypeNosniff := "nosniff",
          XFrameOptions := "SAMEORIGIN", HSTSMaxAge := 0, HSTSExcludeSubdomains := false,
          ContentSecurityPolicy := "", CSPReportOnly := false,
          HSTSPreloadEnabled := false, ReferrerPolicy := "" }
    ∧ Secure = SecureWithConfig DefaultSecureConfig
    ∧ (Secure.Func c).1.response HeaderXXSSProtection = some "1; mode=block"
    ∧ (Secure.Func c).1.response HeaderXContentTypeOptions = some "nosniff"
    ∧ (Secure.Func c).1.response HeaderXFrameOptions = some "SAMEORIGIN"
    ∧ (Secure.Func c).1.response HeaderStrictTransportSecurity
        = c.response HeaderStrictTransportSecurity
    ∧ (Secure.Func c).1.response HeaderContentSecurityPolicy
        = c.response HeaderContentSecurityPolicy
    ∧ (Secure.Func c).1.response HeaderContentSecurityPolicyReportOnly
        = c.response HeaderContentSecurityPolicyReportOnly
    ∧ (Secure.Func c).1.response HeaderReferrerPolicy = c.response HeaderReferrerPolicy := by
  have happ : ¬ hstsApplies DefaultSecureConfig c := fun h => h.2 rfl
  refine ⟨rfl, rfl, ?_, ?_, ?_, ?_, ?_, ?_, ?_⟩ <;>
    (unfold Secure; rw [SecureWithConfig_response]; simp only [happ, false_and, if_false]) <;>
    simp [DefaultSecureConfig, HeaderXXSSProtection, HeaderXContentTypeOptions,
      HeaderXFrameOptions, HeaderStrictTransportSecurity, HeaderContentSecurityPolicy,
      HeaderContentSecurityPolicyReportOnly, HeaderReferrerPolicy]

/-- C9: whenever the handler writes `Strict-Transport-Security`, the written value is
not `max-age=0`, does not begin with `max-age=0;`, and the character that follows
`max-age=` is not the digit `0`; and when `HSTSMaxAge` is 0 the header is not written. -/
theorem never_emits_max_age_zero (config : SecureConfig) (c : Context) :
    (∀ v, Call.setHeader HeaderStrictTransportSecurity v ∈
          issued c ((SecureWithConfig config).Func c).1 →
        v ≠ "max-age=0" ∧ ¬ ("max-age=0;".data <+: v.data)
          ∧ "max-age=".data <+: v.data ∧ v.data[8]? ≠ some '0')
    ∧ (config.HSTSMaxAge = 0 → ∀ v, Call.setHeader HeaderStrictTransportSecurity v ∉
          issued c ((SecureWithConfig config).Func c).1) := by
  have e8 : "max-age=".data = ['m', 'a', 'x', '-', 'a', 'g', 'e', '='] := rfl
  have e9 : "max-age=0".data = ['m', 'a', 'x', '-', 'a', 'g', 'e', '=', '0'] := rfl
  have e10 : "max-age=0;".data = ['m', 'a', 'x', '-', 'a', 'g', 'e', '=', '0', ';'] := rfl
  refine ⟨?_, ?_⟩
  · intro v hv
    rw [issued_SecureWithConfig, mem_assignments_hsts] at hv
    obtain ⟨happ, rfl⟩ := hv
    obtain ⟨ch, rest, hd, hch⟩ := hstsValue_data config happ.2
    refine ⟨?_, ?_, ?_, ?_⟩
    · intro heq
      have hdata := congrArg String.data heq
      rw [hd, e8, e9] at hdata
      simp at hdata
      exact hch hdata.1
    · rw [hd, e8, e10]
      simp only [List.cons_append, List.nil_append, List.cons_prefix_cons, true_and]
      rintro ⟨h0, -⟩
      exact hch h0.symm
    · rw [hd]
      exact List.prefix_append _ _
    · rw [hd, e8]
      simpa using hch
  · intro h0 v hv
    rw [issued_SecureWithConfig, mem_assignments_hsts] at hv
    exact hv.1.2 h0

/-- Witness for C9: with max-age 600 on a TLS exchange the handler writes
`max-age=600; includeSubdomains`, which is not a `max-age=0` directive. -/
theorem never_emits_max_age_zero_witness :
    Call.setHeader HeaderStrictTransportSecurity "max-age=600; includeSubdomains" ∈
        issued (plainExchange true)
          ((SecureWithConfig (hstsOnly 600 false false)).Func (plainExchange true)).1
    ∧ "max-age=600; includeSubdomains" ≠ "max-age=0"
    ∧ ¬ ("max-age=0;".data <+: "max-age=600; includeSubdomains".data)
    ∧ "max-age=".data <+: "max-age=600; includeSubdomains".data
    ∧ "max-age=600; includeSubdomains".data[8]? ≠ some '0' :=
  ⟨by decide,
   (never_emits_max_age_zero (hstsOnly 600 false false) (plainExchange true)).1
    "max-age=600; includeSubdomains" (by decide)⟩

/-- C10: the handler never clears a header: a header present in the sink before the
call is present after it, holding either its old value or a value the handler has just
written under that name. -/
theorem headers_never_cleared (config : SecureConfig) (c : Context) (k v : String)
    (h : c.response k = some v) :
    ((SecureWithConfig config).Func c).1.response k ≠ none
    ∧ (((SecureWithConfig config).Func c).1.response k = some v
      ∨ ∃ w, Call.setHeader k w ∈ issued c ((SecureWithConfig config).Func c).1
          ∧ ((SecureWithConfig config).Func c).1.response k = some w) := by
  have key : ((SecureWithConfig config).Func c).1.response k = some v
      ∨ ∃ w, Call.setHeader k w ∈ issued c ((SecureWithConfig config).Func c).1
          ∧ ((SecureWithConfig config).Func c).1.response k = some w := by
    rw [issued_SecureWithConfig, SecureWithConfig_response]
    simp only [mem_assignments]
    generalize (if config.CSPReportOnly then HeaderContentSecurityPolicyReportOnly
      else HeaderContentSecurityPolicy) = cspName
    split_ifs with h1 h2 h3 h4 h5 h6
    · exact Or.inr ⟨_, Or.inr (Or.inr (Or.inr (Or.inr (Or.inr ⟨h1.1, h1.2, rfl⟩)))), rfl⟩
    · exact Or.inr ⟨_, Or.inr (Or.inr (Or.inr (Or.inr (Or.inl ⟨h2.1, h2.2, rfl⟩)))), rfl⟩
    · exact Or.inr ⟨_, Or.inr (Or.inr (Or.inr (Or.inl ⟨h3.1, h3.2, rfl⟩))), rfl⟩
    · exact Or.inr ⟨_, Or.inr (Or.inr (Or.inl ⟨h4.1, h4.2, rfl⟩)), rfl⟩
    · exact Or.inr ⟨_, Or.inr (Or.inl ⟨h5.1, h5.2, rfl⟩), rfl⟩
    · exact Or.inr ⟨_, Or.inl ⟨h6.1, h6.2, rfl⟩, rfl⟩
    · exact Or.inl h
  refine ⟨?_, key⟩
  rcases key with hk | ⟨w, -, hk⟩ <;> rw [hk] <;> exact Option.some_ne_none _

/-- Witness for C10: on a sink holding `Server: yee` and `X-Frame-Options: DENY`, the
default configuration keeps `Server` and overwrites `X-Frame-Options`; neither is
cleared. -/
theorem headers_never_cleared_witness :
    (((SecureWithConfig DefaultSecureConfig).Func presetExchange).1.response "Server" ≠ none
      ∧ (((SecureWithConfig DefaultSecureConfig).Func presetExchange).1.response "Server"
          = some "yee"
        ∨ ∃ w, Call.setHeader "Server" w ∈
              issued presetExchange ((SecureWithConfig DefaultSecureConfig).Func presetExchange).1
            ∧ ((SecureWithConfig DefaultSecureConfig).Func presetExchange).1.response "Server"
              = some w))
    ∧ ((SecureWithConfig DefaultSecureConfig).Func presetExchange).1.response
        HeaderXFrameOptions ≠ none :=
  ⟨headers_never_cleared DefaultSecureConfig presetExchange "Server" "yee" (by decide),
   (headers_never_cleared DefaultSecureConfig presetExchange HeaderXFrameOptions "DENY"
      (by decide)).1⟩

/-- C11: running the handler with configuration `A` and then with `B` on the same
exchange leaves every header that `B` writes holding exactly the value `B` writes, and
every header that `B` does not write holding the value it had after the run with `A`. -/
theorem last_write_wins (A B : SecureConfig) (c : Context) (k : String) :
    (∀ w, Call.setHeader k w ∈ issued ((SecureWithConfig A).Func c).1
          ((SecureWithConfig B).Func ((SecureWithConfig A).Func c).1).1 →
        ((SecureWithConfig B).Func ((SecureWithConfig A).Func c).1).1.response k = some w)
    ∧ ((¬ ∃ w, Call.setHeader k w ∈ issued ((SecureWithConfig A).Func c).1
          ((SecureWithConfig B).Func ((SecureWithConfig A).Func c).1).1) →
        ((SecureWithConfig B).Func ((SecureWithConfig A).Func c).1).1.response k
          = ((SecureWithConfig A).Func c).1.response k) := by
  generalize ((SecureWithConfig A).Func c).1 = cA
  rw [issued_SecureWithConfig, SecureWithConfig_response]
  simp only [mem_assignments]
  refine ⟨?_, ?_⟩
  · intro w hw
    rcases hw with ⟨h, rfl, rfl⟩ | ⟨h, rfl, rfl⟩ | ⟨h, rfl, rfl⟩ | ⟨h, rfl, rfl⟩
        | ⟨h, rfl, rfl⟩ | ⟨h, rfl, rfl⟩ <;>
      cases B.CSPReportOnly <;>
      simp [h, HeaderXXSSProtection, HeaderXContentTypeOptions, HeaderXFrameOptions,
        HeaderStrictTransportSecurity, HeaderContentSecurityPolicy,
        HeaderContentSecurityPolicyReportOnly, HeaderReferrerPolicy]
  · intro hnone
    generalize (if B.CSPReportOnly then HeaderContentSecurityPolicyReportOnly
      else HeaderContentSecurityPolicy) = cspName at hnone ⊢
    split_ifs with h1 h2 h3 h4 h5 h6
    · exact absurd ⟨_, Or.inr (Or.inr (Or.inr (Or.inr (Or.inr ⟨h1.1, h1.2, rfl⟩))))⟩ hnone
    · exact absurd ⟨_, Or.inr (Or.inr (Or.inr (Or.inr (Or.inl ⟨h2.1, h2.2, rfl⟩))))⟩ hnone
    · exact absurd ⟨_, Or.inr (Or.inr (Or.inr (Or.inl ⟨h3.1, h3.2, rfl⟩)))⟩ hnone
    · exact absurd ⟨_, Or.inr (Or.inr (Or.inl ⟨h4.1, h4.2, rfl⟩))⟩ hnone
    · exact absurd ⟨_, Or.inr (Or.inl ⟨h5.1, h5.2, rfl⟩)⟩ hnone
    · exact absurd ⟨_, Or.inl ⟨h6.1, h6.2, rfl⟩⟩ hnone
    · rfl

/-- Witness for C11: after the default configuration and then `denyFrames` on a TLS
exchange, `X-Frame-Options` holds the later value `DENY` and `X-XSS-Protection`, which
`denyFrames` does not write, keeps the value of the first run. -/
theorem last_write_wins_witness :
    ((SecureWithConfig denyFrames).Func
        ((SecureWithConfig DefaultSecureConfig).Func (plainExchange true)).1).1.response
        HeaderXFrameOptions = some "DENY"
    ∧ ((SecureWithConfig denyFrames).Func
        ((SecureWithConfig DefaultSecureConfig).Func (plainExchange true)).1).1.response
        HeaderXXSSProtection
      = ((SecureWithConfig DefaultSecureConfig).Func (plainExchange true)).1.response
        HeaderXXSSProtection :=
  ⟨(last_write_wins DefaultSecureConfig denyFrames (plainExchange true)
      HeaderXFrameOptions).1 "DENY" (by decide),
   (last_write_wins DefaultSecureConfig denyFrames (plainExchange true)
      HeaderXXSSProtection).2 (by
        rw [issued_SecureWithConfig]
        simp only [mem_assignments]
        simp [denyFrames, HeaderXXSSProtection, HeaderXContentTypeOptions,
          HeaderXFrameOptions, HeaderStrictTransportSecurity, HeaderContentSecurityPolicy,
          HeaderContentSecurityPolicyReportOnly, HeaderReferrerPolicy])⟩

/-- C12: the handler never fails: for every configuration and every exchange its error
result is `nil`, also when the next stage of the chain has an error pending. -/
theorem policy_never_fails (config : SecureConfig) (c : Context) :
    ((SecureWithConfig config).Func c).2 = none
    ∧ ∀ e : Error, ((SecureWithConfig config).Func { c with downstream := some e }).2 = none :=
  ⟨rfl, fun _ => rfl⟩

/-- C13: a response header whose name is none of the seven security header names has
the same presence and value after the handler as before it, and the handler issues no
assignment under such a name. -/
theorem frame_other_headers (config : SecureConfig) (c : Context) (k : String)
    (hxss : k ≠ HeaderXXSSProtection) (hsniff : k ≠ HeaderXContentTypeOptions)
    (hframe : k ≠ HeaderXFrameOptions) (hsts : k ≠ HeaderStrictTransportSecurity)
    (hcsp : k ≠ HeaderContentSecurityPolicy)
    (hcspro : k ≠ HeaderContentSecurityPolicyReportOnly)
    (href : k ≠ HeaderReferrerPolicy) :
    ((SecureWithConfig config).Func c).1.response k = c.response k
    ∧ ∀ v, Call.setHeader k v ∉ issued c ((SecureWithConfig config).Func c).1 := by
  refine ⟨?_, ?_⟩
  · rw [SecureWithConfig_response]
    cases config.CSPReportOnly <;> simp [hxss, hsniff, hframe, hsts, hcsp, hcspro, href]
  · intro v
    rw [issued_SecureWithConfig, mem_assignments]
    cases config.CSPReportOnly <;> simp [hxss, hsniff, hframe, hsts, hcsp, hcspro, href]

/-- Witness for C13: the header `Server: yee` survives the default handler unchanged. -/
theorem frame_other_headers_witness :
    ((SecureWithConfig DefaultSecureConfig).Func presetExchange).1.response "Server"
        = presetExchange.response "Server"
    ∧ ∀ v, Call.setHeader "Server" v ∉
        issued presetExchange ((SecureWithConfig DefaultSecureConfig).Func presetExchange).1 :=
  frame_other_headers DefaultSecureConfig presetExchange "Server"
    (by decide) (by decide) (by decide) (by decide) (by decide) (by decide) (by decide)

/-! ### The clauses as separate transformations -/

@[simp] theorem xssClause_tls (config : SecureConfig) (c : Context) :
    (xssClause config c).tls = c.tls := by
  unfold xssClause; split_ifs <;> rfl

@[simp] theorem xssClause_request (config : SecureConfig) (c : Context) :
    (xssClause config c).request = c.request := by
  unfold xssClause; split_ifs <;> rfl

@[simp] theorem nosniffClause_tls (config : SecureConfig) (c : Context) :
    (nosniffClause config c).tls = c.tls := by
  unfold nosniffClause; split_ifs <;> rfl

@[simp] theorem nosniffClause_request (config : SecureConfig) (c : Context) :
    (nosniffClause config c).request = c.request := by
  unfold nosniffClause; split_ifs <;> rfl

@[simp] theorem frameClause_tls (config : SecureConfig) (c : Context) :
    (frameClause config c).tls = c.tls := by
  unfold frameClause; split_ifs <;> rfl

@[simp] theorem frameClause_request (config : SecureConfig) (c : Context) :
    (frameClause config c).request = c.request := by
  unfold frameClause; split_ifs <;> rfl

@[simp] theorem hstsClause_tls (config : SecureConfig) (c : Context) :
    (hstsClause config c).tls = c.tls := by
  unfold hstsClause; split_ifs <;> rfl

@[simp] theorem hstsClause_request (config : SecureConfig) (c : Context) :
    (hstsClause config c).request = c.request := by
  unfold hstsClause; split_ifs <;> rfl

@[simp] theorem cspClause_tls (config : SecureConfig) (c : Context) :
    (cspClause config c).tls = c.tls := by
  unfold cspClause; split_ifs <;> rfl

@[simp] theorem cspClause_request (config : SecureConfig) (c : Context) :
    (cspClause config c).request = c.request := by
  unfold cspClause; split_ifs <;> rfl

@[simp] theorem referrerClause_tls (config : SecureConfig) (c : Context) :
    (referrerClause config c).tls = c.tls := by
  unfold referrerClause; split_ifs <;> rfl

@[simp] theorem referrerClause_request (config : SecureConfig) (c : Context) :
    (referrerClause config c).request = c.request := by
  unfold referrerClause; split_ifs <;> rfl

theorem sameExchange_refl (c : Context) : sameExchange c c := ⟨rfl, rfl, rfl⟩

theorem sameExchange_trans {c₁ c₂ c₃ : Context} (h₁ : sameExchange c₁ c₂)
    (h₂ : sameExchange c₂ c₃) : sameExchange c₁ c₃ :=
  ⟨h₁.1.trans h₂.1, h₁.2.1.trans h₂.2.1, h₁.2.2.trans h₂.2.2⟩

/-- The transport-security guard reads only the TLS flag and the inbound headers. -/
theorem hstsApplies_congr (config : SecureConfig) {c₁ c₂ : Context}
    (ht : c₁.tls = c₂.tls) (hr : c₁.request = c₂.request) :
    hstsApplies config c₁ ↔ hstsApplies config c₂ := by
  unfold hstsApplies Context.IsTls Context.GetHeader
  rw [ht, hr]

theorem mem_clauses (config : SecureConfig) (f : Context → Context) :
    f ∈ clauses config ↔
      f = xssClause config ∨ f = nosniffClause config ∨ f = frameClause config
        ∨ f = hstsClause config ∨ f = cspClause config ∨ f = referrerClause config := by
  simp [clauses]

/-- Each clause maps exchanges with equal signals and sinks to such exchanges. -/
theorem clause_respects (config : SecureConfig) (f : Context → Context)
    (hf : f ∈ clauses config) {c₁ c₂ : Context} (h : sameExchange c₁ c₂) :
    sameExchange (f c₁) (f c₂) := by
  obtain ⟨ht, hr, hs⟩ := h
  have happ := hstsApplies_congr config ht hr
  rw [mem_clauses] at hf
  rcases hf with rfl | rfl | rfl | rfl | rfl | rfl <;>
    refine ⟨by simpa using ht, by simpa using hr, ?_⟩ <;>
    funext j <;>
    simp only [xssClause_response, nosniffClause_response, frameClause_response,
      hstsClause_response, cspClause_response, referrerClause_response, happ, hs]

/-- Any two clauses commute, as far as the signals and the sink are concerned. -/
theorem clauses_commute (config : SecureConfig) (f g : Context → Context)
    (hf : f ∈ clauses config) (hg : g ∈ clauses config) (c : Context) :
    sameExchange (f (g c)) (g (f c)) := by
  rw [mem_clauses] at hf hg
  rcases hf with rfl | rfl | rfl | rfl | rfl | rfl <;>
    rcases hg with rfl | rfl | rfl | rfl | rfl | rfl <;>
    refine ⟨by simp, by simp, ?_⟩ <;>
    funext j <;>
    simp only [xssClause_response, nosniffClause_response, frameClause_response,
      hstsClause_response, cspClause_response, referrerClause_response,
      xssClause_hstsApplies, nosniffClause_hstsApplies, frameClause_hstsApplies,
      hstsClause_hstsApplies, cspClause_hstsApplies, referrerClause_hstsApplies] <;>
    cases config.CSPReportOnly <;>
    split_ifs <;>
    simp_all [HeaderXXSSProtection, HeaderXContentTypeOptions, HeaderXFrameOptions,
      HeaderStrictTransportSecurity, HeaderContentSecurityPolicy,
      HeaderContentSecurityPolicyReportOnly, HeaderReferrerPolicy]

theorem applyAll_cons (f : Context → Context) (l : List (Context → Context)) (c : Context) :
    applyAll (f :: l) c = applyAll l (f c) := rfl

theorem applyAll_respects (config : SecureConfig) (l : List (Context → Context)) :
    (∀ f ∈ l, f ∈ clauses config) → ∀ c₁ c₂ : Context, sameExchange c₁ c₂ →
      sameExchange (applyAll l c₁) (applyAll l c₂) := by
  induction l with
  | nil => intro _ c₁ c₂ h; exact h
  | cons f l ih =>
    intro hl c₁ c₂ h
    rw [applyAll_cons, applyAll_cons]
    exact ih (fun g hg => hl g (List.mem_cons_of_mem _ hg)) _ _
      (clause_respects config f (hl f (List.mem_cons_self _ _)) h)

/-- Applying the same clauses in two different orders gives the same signals and sink. -/
theorem applyAll_perm (config : SecureConfig) {l₁ l₂ : List (Context → Context)}
    (p : l₁.Perm l₂) :
    (∀ f ∈ l₁, f ∈ clauses config) → ∀ c₁ c₂ : Context, sameExchange c₁ c₂ →
      sameExchange (applyAll l₁ c₁) (applyAll l₂ c₂) := by
  induction p with
  | nil => intro _ c₁ c₂ h; exact h
  | cons x _ ih =>
    intro hl c₁ c₂ h
    rw [applyAll_cons, applyAll_cons]
    exact ih (fun g hg => hl g (List.mem_cons_of_mem _ hg)) _ _
      (clause_respects config x (hl x (List.mem_cons_self _ _)) h)
  | swap x y l =>
    intro hl c₁ c₂ h
    have hy : y ∈ clauses config := hl y (List.mem_cons_self _ _)
    have hx : x ∈ clauses config := hl x (List.mem_cons_of_mem _ (List.mem_cons_self _ _))
    rw [applyAll_cons, applyAll_cons, applyAll_cons, applyAll_cons]
    refine applyAll_respects config l
      (fun g hg => hl g (List.mem_cons_of_mem _ (List.mem_cons_of_mem _ hg))) _ _ ?_
    exact sameExchange_trans (clauses_commute config x y hx hy c₁)
      (clause_respects config y hy (clause_respects config x hx h))
  | trans p₁ _ ih₁ ih₂ =>
    intro hl c₁ c₂ h
    exact sameExchange_trans (ih₁ hl c₁ c₁ (sameExchange_refl c₁))
      (ih₂ (fun f hf => hl f (p₁.symm.subset hf)) c₁ c₂ h)

/-- The handler is the six clauses applied in source order. -/
theorem applyAll_clauses (config : SecureConfig) (c : Context) :
    applyAll (clauses config) c = ((SecureWithConfig config).Func c).1 := rfl

/-- C14: applying the six guarded assignments in any permutation of the source order
gives the same final response header map as `SecureWithConfig`; any two of them
commute on the header map, and none changes what the transport-security guard, the
only condition that reads the exchange, evaluates to. -/
theorem clause_order_independent (config : SecureConfig) (c : Context)
    (l : List (Context → Context)) (h : l.Perm (clauses config)) :
    (applyAll l c).response = ((SecureWithConfig config).Func c).1.response
    ∧ (∀ f ∈ clauses config, ∀ g ∈ clauses config,
        (f (g c)).response = (g (f c)).response)
    ∧ (∀ f ∈ clauses config, (hstsApplies config (f c) ↔ hstsApplies config c)) := by
  refine ⟨?_, ?_, ?_⟩
  · rw [← applyAll_clauses]
    exact (applyAll_perm config h (fun f hf => h.subset hf) c c (sameExchange_refl c)).2.2
  · intro f hf g hg
    exact (clauses_commute config f g hf hg c).2.2
  · intro f hf
    rw [mem_clauses] at hf
    rcases hf with rfl | rfl | rfl | rfl | rfl | rfl <;>
      exact hstsApplies_congr config (by simp) (by simp)

/-- Witness for C14: the six clauses of `fullConfig` applied in reverse source order on
a TLS exchange give the header map of the handler. -/
theorem clause_order_independent_witness :
    (applyAll (clauses fullConfig).reverse (plainExchange true)).response
      = ((SecureWithConfig fullConfig).Func (plainExchange true)).1.response :=
  (clause_order_independent fullConfig (plainExchange true) (clauses fullConfig).reverse
    (List.reverse_perm _)).1

/-- C15: two exchanges that start with the same response header map, whatever their
TLS flags and inbound headers are, have after the handler the same value under every
header name other than `Strict-Transport-Security`. -/
theorem request_signals_noninterference (config : SecureConfig) (c₁ c₂ : Context)
    (k : String) (hresp : c₁.response = c₂.response)
    (hk : k ≠ HeaderStrictTransportSecurity) :
    ((SecureWithConfig config).Func c₁).1.response k
      = ((SecureWithConfig config).Func c₂).1.response k := by
  rw [SecureWithConfig_response, SecureWithConfig_response, hresp]
  simp only [hk, and_false, if_false]

/-- Witness for C15: a TLS exchange and a plain one forwarded as `http` end with the
same `X-Frame-Options` under `fullConfig`. -/
theorem request_signals_noninterference_witness :
    ((SecureWithConfig fullConfig).Func (plainExchange true)).1.response HeaderXFrameOptions
      = ((SecureWithConfig fullConfig).Func (forwardedExchange "http")).1.response
          HeaderXFrameOptions :=
  request_signals_noninterference fullConfig (plainExchange true) (forwardedExchange "http")
    HeaderXFrameOptions rfl (by decide)

/-! ### Negative numbers and the characters of a decimal form -/

/-- The decimal form of a negative number is a minus sign and the digits of its
absolute value. -/
theorem decimal_neg (n : Int) (h : n < 0) : decimal n = "-" ++ Nat.repr n.natAbs := by
  cases n with
  | ofNat m => exact absurd h (by simp)
  | negSucc m => rfl

theorem digitChar_mem (n : Nat) (h : n < 10) : Nat.digitChar n ∈ "-0123456789".data := by
  interval_cases n <;> decide

theorem toDigitsCore_chars (fuel : Nat) : ∀ (n : Nat) (ds : List Char),
    (∀ ch ∈ ds, ch ∈ "-0123456789".data) →
    ∀ ch ∈ Nat.toDigitsCore 10 fuel n ds, ch ∈ "-0123456789".data := by
  induction fuel with
  | zero => intro n ds hds ch hch; exact hds ch hch
  | succ fuel ih =>
    intro n ds hds
    have hcons : ∀ ch ∈ Nat.digitChar (n % 10) :: ds, ch ∈ "-0123456789".data := by
      intro ch hch
      rcases List.mem_cons.1 hch with rfl | hmem
      · exact digitChar_mem _ (Nat.mod_lt _ (by decide))
      · exact hds ch hmem
    simp only [Nat.toDigitsCore]
    split_ifs
    · exact hcons
    · exact ih _ _ hcons

/-- Every character of a decimal form is a digit or the minus sign. -/
theorem decimal_chars (n : Int) : ∀ ch ∈ (decimal n).data, ch ∈ "-0123456789".data := by
  cases n with
  | ofNat m => exact toDigitsCore_chars (m + 1) m [] (by simp)
  | negSucc m =>
    intro ch hch
    have hd : (decimal (Int.negSucc m)).data = '-' :: Nat.toDigitsCore 10 (m + 2) (m + 1) [] :=
      rfl
    rw [hd] at hch
    rcases List.mem_cons.1 hch with rfl | hmem
    · decide
    · exact toDigitsCore_chars (m + 2) (m + 1) [] (by simp) ch hmem

/-- C16: a negative `HSTSMaxAge` is not treated as disabled: on a request that is
TLS-terminated or forwarded as `https` the handler writes `Strict-Transport-Security`,
and the value is `max-age=-` followed by the decimal digits of the absolute value and
then the directives. -/
theorem negative_max_age_written (config : SecureConfig) (c : Context)
    (hneg : config.HSTSMaxAge < 0)
    (hreq : c.IsTls = true ∨ c.GetHeader HeaderXForwardedProto = "https") :
    Call.setHeader HeaderStrictTransportSecurity
        ("max-age=-" ++ Nat.repr config.HSTSMaxAge.natAbs
          ++ (if config.HSTSExcludeSubdomains then "" else "; includeSubdomains")
          ++ (if config.HSTSPreloadEnabled then "; preload" else ""))
      ∈ issued c ((SecureWithConfig config).Func c).1
    ∧ ((SecureWithConfig config).Func c).1.response HeaderStrictTransportSecurity
      = some ("max-age=-" ++ Nat.repr config.HSTSMaxAge.natAbs
          ++ (if config.HSTSExcludeSubdomains then "" else "; includeSubdomains")
          ++ (if config.HSTSPreloadEnabled then "; preload" else ""))
    ∧ ("max-age=-" ++ Nat.repr config.HSTSMaxAge.natAbs).data <+:
        ("max-age=-" ++ Nat.repr config.HSTSMaxAge.natAbs
          ++ (if config.HSTSExcludeSubdomains then "" else "; includeSubdomains")
          ++ (if config.HSTSPreloadEnabled then "; preload" else "")).data := by
  have happ : hstsApplies config c := ⟨hreq, ne_of_lt hneg⟩
  have hval : hstsValue config = "max-age=-" ++ Nat.repr config.HSTSMaxAge.natAbs
      ++ (if config.HSTSExcludeSubdomains then "" else "; includeSubdomains")
      ++ (if config.HSTSPreloadEnabled then "; preload" else "") := by
    rw [hstsValue_eq, decimal_neg _ hneg, ← String.append_assoc "max-age=" "-"]
    rfl
  rw [← hval]
  refine ⟨?_, ?_, ?_⟩
  · rw [issued_SecureWithConfig, mem_assignments_hsts]
    exact ⟨happ, rfl⟩
  · rw [SecureWithConfig_response]
    cases config.CSPReportOnly <;>
      simp [happ, HeaderStrictTransportSecurity, HeaderContentSecurityPolicy,
        HeaderContentSecurityPolicyReportOnly, HeaderReferrerPolicy]
  · rw [hval]
    simp only [String.data_append, List.append_assoc]
    exact List.prefix_append _ _

/-- Witness for C16: max-age -5 on a TLS exchange gives `max-age=-5; includeSubdomains`. -/
theorem negative_max_age_written_witness :
    ((SecureWithConfig (hstsOnly (-5) false false)).Func (plainExchange true)).1.response
      HeaderStrictTransportSecurity = some "max-age=-5; includeSubdomains" :=
  (negative_max_age_written (hstsOnly (-5) false false) (plainExchange true)
    (by decide) (Or.inl rfl)).2.1.trans (by decide)

/-- C17: with `HSTSMaxAge` different from 0, `HSTSExcludeSubdomains` and
`HSTSPreloadEnabled` both true, on a request that is TLS-terminated or forwarded as
`https`, the written `Strict-Transport-Security` value is exactly `max-age=`, the
decimal max-age and `; preload`, and `includeSubdomains` does not occur in it. -/
theorem exclude_subdomains_with_preload (config : SecureConfig) (c : Context)
    (hage : config.HSTSMaxAge ≠ 0) (hexcl : config.HSTSExcludeSubdomains = true)
    (hpre : config.HSTSPreloadEnabled = true)
    (hreq : c.IsTls = true ∨ c.GetHeader HeaderXForwardedProto = "https") :
    Call.setHeader HeaderStrictTransportSecurity
        ("max-age=" ++ decimal config.HSTSMaxAge ++ "; preload")
      ∈ issued c ((SecureWithConfig config).Func c).1
    ∧ ((SecureWithConfig config).Func c).1.response HeaderStrictTransportSecurity
      = some ("max-age=" ++ decimal config.HSTSMaxAge ++ "; preload")
    ∧ ¬ ("includeSubdomains".data <:+:
          ("max-age=" ++ decimal config.HSTSMaxAge ++ "; preload").data) := by
  have happ : hstsApplies config c := ⟨hreq, hage⟩
  have hval : hstsValue config = "max-age=" ++ decimal config.HSTSMaxAge ++ "; preload" := by
    rw [hstsValue_eq, hexcl, hpre]
    simp
  refine ⟨?_, ?_, ?_⟩
  · rw [issued_SecureWithConfig, mem_assignments_hsts]
    exact ⟨happ, hval.symm⟩
  · rw [SecureWithConfig_response, ← hval]
    cases config.CSPReportOnly <;>
      simp [happ, HeaderStrictTransportSecurity, HeaderContentSecurityPolicy,
        HeaderContentSecurityPolicyReportOnly, HeaderReferrerPolicy]
  · rintro ⟨s, t, hst⟩
    have hi : 'i' ∈ ("max-age=" ++ decimal config.HSTSMaxAge ++ "; preload").data := by
      rw [← hst]
      have e : "includeSubdomains".data = 'i' :: "ncludeSubdomains".data := rfl
      rw [e]
      simp
    simp only [String.data_append, List.mem_append] at hi
    rcases hi with (hi | hi) | hi
    · exact absurd hi (by decide)
    · exact absurd (decimal_chars _ _ hi) (by decide)
    · exact absurd hi (by decide)

/-- Witness for C17: max-age 31536000 with subdomains excluded and preload enabled, on a
TLS exchange, gives `max-age=31536000; preload`. -/
theorem exclude_subdomains_with_preload_witness :
    ((SecureWithConfig (hstsOnly 31536000 true true)).Func (plainExchange true)).1.response
      HeaderStrictTransportSecurity = some "max-age=31536000; preload" :=
  (exclude_subdomains_with_preload (hstsOnly 31536000 true true) (plainExchange true)
    (by decide) rfl rfl (Or.inl rfl)).2.1.trans (by decide)

end Yee
